import Mathlib

/-!
Verification of the reference-counted, copy-on-write smart pointer
(`smart_ptr<T>` in `smart_ptr.cpp`).

The embedding models the heap explicitly.  A machine state carries
  * the live `smart_ptr` objects (handles), indexed by a stable slot number,
  * a heap of value cells (`new T`) and a heap of count cells (`new int`),
  * allocator bookkeeping (`nextV`, `nextC`) giving fresh addresses.
The observable program state is the triple (handles, value heap, count heap);
the `next` counters are allocator bookkeeping only.

Each member function of the C++ class is translated statement by statement.
Reads through a pointer return `none` (for the whole operation) when the cell
is absent — that marks the executions in which the C++ performs an invalid
memory access (undefined behavior).  An allocation-failure flag per `new`
expression models the test harness's `throwBadAlloc` injection; a thrown
`std::bad_alloc` or `null_ptr_exception` is an explicit result constructor
carrying the state at the throw point.  The pointed-to type `T` is fixed to
`Int`: the class uses only default construction (`0`) and copy assignment.
-/

namespace SmartPtrModel

abbrev Val := Int

/-- The two data members of the C++ class: `ptr_` (address of the referred
object, `none` = `nullptr`) and `ref_` (address of the reference count). -/
structure smart_ptr where
  ptr_ : Option Nat
  ref_ : Option Nat
deriving DecidableEq, Repr

/-- A machine state: live handles by slot, the two heaps, and the next fresh
address of each heap. -/
structure State where
  handles : Nat → Option smart_ptr
  numH : Nat
  vals : Nat → Option Val
  cnts : Nat → Option Int
  nextV : Nat
  nextC : Nat

def initState : State :=
  ⟨fun _ => none, 0, fun _ => none, fun _ => none, 0, 0⟩

/-- `new T{x}`: allocate a value cell, returning its address. -/
def allocVal (x : Val) (s : State) : Nat × State :=
  (s.nextV,
   { s with vals := Function.update s.vals s.nextV (some x), nextV := s.nextV + 1 })

/-- `delete` on a value pointer. -/
def freeVal (a : Nat) (s : State) : State :=
  { s with vals := Function.update s.vals a none }

/-- `delete` on a possibly null value pointer (`delete nullptr` is a no-op). -/
def freeValOpt (p : Option Nat) (s : State) : State :=
  match p with
  | none => s
  | some a => freeVal a s

/-- `new int(n)`: allocate a count cell, returning its address. -/
def allocCnt (n : Int) (s : State) : Nat × State :=
  (s.nextC,
   { s with cnts := Function.update s.cnts s.nextC (some n), nextC := s.nextC + 1 })

/-- `delete` on a count pointer. -/
def freeCnt (a : Nat) (s : State) : State :=
  { s with cnts := Function.update s.cnts a none }

/-- Store through a value pointer. -/
def writeVal (a : Nat) (x : Val) (s : State) : State :=
  { s with vals := Function.update s.vals a (some x) }

/-- Store through a count pointer. -/
def writeCnt (a : Nat) (n : Int) (s : State) : State :=
  { s with cnts := Function.update s.cnts a (some n) }

/-- Overwrite the members of the handle in slot `i`. -/
def setHandle (i : Nat) (h : smart_ptr) (s : State) : State :=
  { s with handles := Function.update s.handles i (some h) }

/-- Bring a newly constructed handle to life in a fresh slot. -/
def pushHandle (h : smart_ptr) (s : State) : State :=
  { s with handles := Function.update s.handles s.numH (some h),
           numH := s.numH + 1 }

/-- End of the lifetime of the object in slot `i`. -/
def killHandle (i : Nat) (s : State) : State :=
  { s with handles := Function.update s.handles i none }

/-- `int ref_count() const noexcept`: `if (ref_ == nullptr) return 0; return *ref_;`.
`none` marks a read through a dangling count pointer. -/
def ref_count (s : State) (h : smart_ptr) : Option Int :=
  match h.ref_ with
  | none => some (0 : Int)
  | some c => s.cnts c

/-- `ref_count()` invoked on the handle living in slot `i`. -/
def refCountAt (i : Nat) (s : State) : Option Int :=
  match s.handles i with
  | none => none
  | some h => ref_count s h

/-- `smart_ptr() noexcept`: both members `nullptr`. -/
def defaultCtor (s : State) : State :=
  pushHandle ⟨none, none⟩ s

/-- Result of a raw-pointer constructor: fully constructed, or
`std::bad_alloc` escaping the constructor with the state at the throw. -/
inductive MkRes where
  | made (s : State)
  | oom (s : State)

/-- `explicit smart_ptr(T* &raw_ptr)`: `ptr_ = raw_ptr; ref_ = new int(1);`.
`a` is the address of the caller-owned value cell; `failCnt` makes the
`new int(1)` throw.  On failure nothing was allocated and `raw_ptr` is not
deleted. -/
def ctorFromRawL (a : Nat) (failCnt : Bool) (s : State) : MkRes :=
  if failCnt then .oom s
  else
    let ac := allocCnt 1 s
    .made (pushHandle ⟨some a, some ac.1⟩ ac.2)

/-- `explicit smart_ptr(T* &&raw_ptr)`: same, but the `catch (std::bad_alloc)`
does `delete raw_ptr; throw;`. -/
def ctorFromRawR (a : Nat) (failCnt : Bool) (s : State) : MkRes :=
  if failCnt then .oom (freeVal a s)
  else
    let ac := allocCnt 1 s
    .made (pushHandle ⟨some a, some ac.1⟩ ac.2)

/-- `smart_ptr(const smart_ptr& rhs) noexcept`:
`ptr_ = rhs.ptr_; ref_ = rhs.ref_; (*ref_)++;`.
The increment is unguarded: when `rhs.ref_` is `nullptr` the constructor
dereferences a null pointer — modelled as `none`. -/
def copyCtor (i : Nat) (s : State) : Option State :=
  match s.handles i with
  | none => none
  | some rhs =>
    match rhs.ref_ with
    | none => none
    | some c =>
      match s.cnts c with
      | none => none
      | some n => some (pushHandle ⟨rhs.ptr_, rhs.ref_⟩ (writeCnt c (n + 1) s))

/-- `smart_ptr(smart_ptr&& rhs) noexcept`: take both members, null out `rhs`. -/
def moveCtor (i : Nat) (s : State) : Option State :=
  match s.handles i with
  | none => none
  | some rhs => some (pushHandle ⟨rhs.ptr_, rhs.ref_⟩ (setHandle i ⟨none, none⟩ s))

/-- The destructor body applied to a handle's members (slot untouched):
`if (ref_ != nullptr) { if (*ref_ == 1) { delete ref_; delete ptr_; } else (*ref_)--; }`. -/
def destructHandle (h : smart_ptr) (s : State) : Option State :=
  match h.ref_ with
  | none => some s
  | some c =>
    match s.cnts c with
    | none => none
    | some n =>
      if n = 1 then some (freeValOpt h.ptr_ (freeCnt c s))
      else some (writeCnt c (n - 1) s)

/-- `~smart_ptr() noexcept` run at end of lifetime of the object in slot `i`. -/
def destruct (i : Nat) (s : State) : Option State :=
  match s.handles i with
  | none => none
  | some h => (destructHandle h s).map (killHandle i)

/-- `operator=(const smart_ptr& rhs) noexcept`, slot `i = slot j`.
Identity `this != &rhs` is slot inequality.  The `ref_count() > 1` branch
decrements the old cell then adopts; the `else` branch runs
`this->~smart_ptr()` then adopts; both guard the final increment with
`if (ref_ != nullptr)`. -/
def copyAssign (i j : Nat) (s : State) : Option State :=
  if i = j then
    match s.handles i with
    | none => none
    | some _ => some s
  else
    match s.handles i, s.handles j with
    | some lhs, some rhs =>
      match ref_count s lhs with
      | none => none
      | some rc =>
        if 1 < rc then
          match lhs.ref_ with
          | none => none
          | some c =>
            match s.cnts c with
            | none => none
            | some n =>
              let s2 := setHandle i ⟨rhs.ptr_, rhs.ref_⟩ (writeCnt c (n - 1) s)
              match rhs.ref_ with
              | none => some s2
              | some c2 =>
                match s2.cnts c2 with
                | none => none
                | some m => some (writeCnt c2 (m + 1) s2)
        else
          match destructHandle lhs s with
          | none => none
          | some s1 =>
            let s2 := setHandle i ⟨rhs.ptr_, rhs.ref_⟩ s1
            match rhs.ref_ with
            | none => some s2
            | some c2 =>
              match s2.cnts c2 with
              | none => none
              | some m => some (writeCnt c2 (m + 1) s2)
    | _, _ => none

/-- `operator=(smart_ptr&& rhs) noexcept`, slot `i = std::move(slot j)`:
`if (this != &rhs) { ptr_ = rhs.ptr_; ref_ = rhs.ref_; rhs.ptr_ = nullptr; rhs.ref_ = nullptr; }`.
The body performs no heap access at all: in particular it does not release
the destination's previous value/count pair. -/
def moveAssign (i j : Nat) (s : State) : Option State :=
  if i = j then
    match s.handles i with
    | none => none
    | some _ => some s
  else
    match s.handles i, s.handles j with
    | some _, some rhs =>
      some (setHandle j ⟨none, none⟩ (setHandle i ⟨rhs.ptr_, rhs.ref_⟩ s))
    | _, _ => none

/-- Result of `clone()`: a returned `bool`, or `std::bad_alloc` escaping with
the state at the throw point. -/
inductive CloneRes where
  | ret (b : Bool) (s : State)
  | oom (s : State)

/-- `bool clone()` on slot `i`.  `failV` makes `p = new T()` throw, `failC`
makes `r = new int(1)` throw; the `catch (std::bad_alloc)` does
`delete p; delete r; throw;`.  On the success path the statements are, in
order: `*p = *ptr_; ptr_ = p; (*ref_)--; ref_ = r;`. -/
def clone (i : Nat) (failV failC : Bool) (s : State) : Option CloneRes :=
  match s.handles i with
  | none => none
  | some h =>
    match h.ptr_ with
    | none => some (.ret false s)
    | some v =>
      match ref_count s h with
      | none => none
      | some rc =>
        if rc = 1 then some (.ret false s)
        else if failV then some (.oom s)
        else
          let av := allocVal 0 s
          if failC then some (.oom (freeVal av.1 av.2))
          else
            let ac := allocCnt 1 av.2
            match ac.2.vals v with
            | none => none
            | some x =>
              let s3 := writeVal av.1 x ac.2
              let s4 := setHandle i ⟨some av.1, h.ref_⟩ s3
              match h.ref_ with
              | none => none
              | some c =>
                match s4.cnts c with
                | none => none
                | some n =>
                  some (.ret true
                    (setHandle i ⟨some av.1, some ac.1⟩ (writeCnt c (n - 1) s4)))

/-- Result of `operator*`: a read value, or a thrown `null_ptr_exception`,
each carrying the state the operation leaves behind. -/
inductive DerefRes where
  | ok (x : Val) (s : State)
  | nullExc (s : State)

/-- The state a `operator*` invocation leaves behind. -/
def DerefRes.stateOf : DerefRes → State
  | .ok _ s => s
  | .nullExc s => s

/-- `T& operator*()`: `if (ptr_ != nullptr) return *ptr_; else throw null_ptr_exception(...)`. -/
def derefStar (i : Nat) (s : State) : Option DerefRes :=
  match s.handles i with
  | none => none
  | some h =>
    match h.ptr_ with
    | none => some (.nullExc s)
    | some v =>
      match s.vals v with
      | none => none
      | some x => some (.ok x s)

/-- Result of `operator->`: the returned pointer, or a thrown
`null_ptr_exception`, each carrying the state left behind. -/
inductive ArrowRes where
  | ok (p : Nat) (s : State)
  | nullExc (s : State)

/-- The state a `operator->` invocation leaves behind. -/
def ArrowRes.stateOf : ArrowRes → State
  | .ok _ s => s
  | .nullExc s => s

/-- `T* operator->()`: `if (ptr_ != nullptr) return ptr_; else throw null_ptr_exception(...)`. -/
def derefArrow (i : Nat) (s : State) : Option ArrowRes :=
  match s.handles i with
  | none => none
  | some h =>
    match h.ptr_ with
    | none => some (.nullExc s)
    | some v => some (.ok v s)

/-- The public operations, as invoked by a client program. -/
inductive Op where
  | mkEmpty
  | mkFromRaw (x : Val)
  | copyC (i : Nat)
  | moveC (i : Nat)
  | copyA (i j : Nat)
  | moveA (i j : Nat)
  | doClone (i : Nat) (failV failC : Bool)
  | destroy (i : Nat)

/-- One public operation applied to the state.  `mkFromRaw x` is the idiom
`smart_ptr<T> sp {new T{x}}`: allocate the raw value, then the by-transfer
constructor. -/
def applyOp (o : Op) (s : State) : Option State :=
  match o with
  | .mkEmpty => some (defaultCtor s)
  | .mkFromRaw x =>
    let av := allocVal x s
    match ctorFromRawR av.1 false av.2 with
    | .made s' => some s'
    | .oom s' => some s'
  | .copyC i => copyCtor i s
  | .moveC i => moveCtor i s
  | .copyA i j => copyAssign i j s
  | .moveA i j => moveAssign i j s
  | .doClone i fV fC =>
    match clone i fV fC s with
    | none => none
    | some (.ret _ s') => some s'
    | some (.oom s') => some s'
  | .destroy i => destruct i s

/-- Run a client program, one public operation after the other. -/
def runOps : List Op → State → Option State
  | [], s => some s
  | o :: rest, s =>
    match applyOp o s with
    | none => none
    | some s' => runOps rest s'

/-- A state is reachable when some sequence of public operations produces it
from the initial (empty) state. -/
def Reachable (s : State) : Prop :=
  ∃ l, runOps l initState = some s

/-- The number of live handles whose `ref_` is the count cell `c`. -/
def aliasCount (s : State) (c : Nat) : Nat :=
  ((List.range s.numH).filter fun i =>
    match s.handles i with
    | some h => h.ref_ = some c
    | none => false).length

/-- The spec's count invariant: every Occupied handle's shared count is at
least 1 and equals exactly the number of live handles aliasing the value. -/
def CountInv (s : State) : Prop :=
  ∀ i h c, s.handles i = some h → h.ref_ = some c →
    1 ≤ aliasCount s c ∧ s.cnts c = some (aliasCount s c : Int)

/-! Projection lemmas for the state-manipulating primitives. -/

@[simp] theorem setHandle_handles (i : Nat) (h : smart_ptr) (s : State) :
    (setHandle i h s).handles = Function.update s.handles i (some h) := rfl

@[simp] theorem setHandle_numH (i : Nat) (h : smart_ptr) (s : State) :
    (setHandle i h s).numH = s.numH := rfl

@[simp] theorem setHandle_vals (i : Nat) (h : smart_ptr) (s : State) :
    (setHandle i h s).vals = s.vals := rfl

@[simp] theorem setHandle_cnts (i : Nat) (h : smart_ptr) (s : State) :
    (setHandle i h s).cnts = s.cnts := rfl

@[simp] theorem pushHandle_handles (h : smart_ptr) (s : State) :
    (pushHandle h s).handles = Function.update s.handles s.numH (some h) := rfl

@[simp] theorem pushHandle_numH (h : smart_ptr) (s : State) :
    (pushHandle h s).numH = s.numH + 1 := rfl

@[simp] theorem pushHandle_vals (h : smart_ptr) (s : State) :
    (pushHandle h s).vals = s.vals := rfl

@[simp] theorem pushHandle_cnts (h : smart_ptr) (s : State) :
    (pushHandle h s).cnts = s.cnts := rfl

@[simp] theorem writeCnt_handles (a : Nat) (n : Int) (s : State) :
    (writeCnt a n s).handles = s.handles := rfl

@[simp] theorem writeCnt_numH (a : Nat) (n : Int) (s : State) :
    (writeCnt a n s).numH = s.numH := rfl

@[simp] theorem writeCnt_vals (a : Nat) (n : Int) (s : State) :
    (writeCnt a n s).vals = s.vals := rfl

@[simp] theorem writeCnt_cnts (a : Nat) (n : Int) (s : State) :
    (writeCnt a n s).cnts = Function.update s.cnts a (some n) := rfl

@[simp] theorem writeVal_handles (a : Nat) (x : Val) (s : State) :
    (writeVal a x s).handles = s.handles := rfl

@[simp] theorem writeVal_numH (a : Nat) (x : Val) (s : State) :
    (writeVal a x s).numH = s.numH := rfl

@[simp] theorem writeVal_vals (a : Nat) (x : Val) (s : State) :
    (writeVal a x s).vals = Function.update s.vals a (some x) := rfl

@[simp] theorem writeVal_cnts (a : Nat) (x : Val) (s : State) :
    (writeVal a x s).cnts = s.cnts := rfl

@[simp] theorem freeVal_handles (a : Nat) (s : State) :
    (freeVal a s).handles = s.handles := rfl

@[simp] theorem freeVal_numH (a : Nat) (s : State) :
    (freeVal a s).numH = s.numH := rfl

@[simp] theorem freeVal_vals (a : Nat) (s : State) :
    (freeVal a s).vals = Function.update s.vals a none := rfl

@[simp] theorem freeVal_cnts (a : Nat) (s : State) :
    (freeVal a s).cnts = s.cnts := rfl

@[simp] theorem allocVal_fst (x : Val) (s : State) :
    (allocVal x s).1 = s.nextV := rfl

@[simp] theorem allocVal_handles (x : Val) (s : State) :
    (allocVal x s).2.handles = s.handles := rfl

@[simp] theorem allocVal_numH (x : Val) (s : State) :
    (allocVal x s).2.numH = s.numH := rfl

@[simp] theorem allocVal_vals (x : Val) (s : State) :
    (allocVal x s).2.vals = Function.update s.vals s.nextV (some x) := rfl

@[simp] theorem allocVal_cnts (x : Val) (s : State) :
    (allocVal x s).2.cnts = s.cnts := rfl

@[simp] theorem allocCnt_fst (n : Int) (s : State) :
    (allocCnt n s).1 = s.nextC := rfl

@[simp] theorem allocCnt_handles (n : Int) (s : State) :
    (allocCnt n s).2.handles = s.handles := rfl

@[simp] theorem allocCnt_numH (n : Int) (s : State) :
    (allocCnt n s).2.numH = s.numH := rfl

@[simp] theorem allocCnt_vals (n : Int) (s : State) :
    (allocCnt n s).2.vals = s.vals := rfl

@[simp] theorem allocCnt_cnts (n : Int) (s : State) :
    (allocCnt n s).2.cnts = Function.update s.cnts s.nextC (some n) := rfl

@[simp] theorem allocCnt_nextV (n : Int) (s : State) :
    (allocCnt n s).2.nextV = s.nextV := rfl

@[simp] theorem allocVal_nextC (x : Val) (s : State) :
    (allocVal x s).2.nextC = s.nextC := rfl

/-! Concrete client programs used to exhibit behaviors of the code. -/

/-- Client program: `b0` from raw value 1; `b1` a copy of `b0`; `b2` from raw
value 2; then `b0 = std::move(b2)`. -/
def cexOps : List Op := [.mkFromRaw 1, .copyC 0, .mkFromRaw 2, .moveA 0 2]

/-- The state the program `cexOps` reaches. -/
def cexState : State := (runOps cexOps initState).getD initState

/-- State with `b0` sole owner of value 4 (count 1) and `b1` owner of value 8. -/
def c3pre : State := (runOps [.mkFromRaw 4, .mkFromRaw 8] initState).getD initState

/-- The state after `b0 = std::move(b1)` from `c3pre`. -/
def c3post : State := (moveAssign 0 1 c3pre).getD initState

/-- A single default-constructed (Empty) box. -/
def c4State : State := defaultCtor initState

/-- A box holding value 5 with a sibling copy: shared count 2. -/
def w1 : State := (runOps [.mkFromRaw 5, .copyC 0] initState).getD initState

/-- A box holding value 7 with two sibling copies: shared count 3. -/
def w5 : State := (runOps [.mkFromRaw 7, .copyC 0, .copyC 0] initState).getD initState

/-- A heap holding one caller-owned raw value 9, no handles. -/
def w6 : State := (allocVal 9 initState).2

/-- An Occupied box (value 3) and an Empty box. -/
def w7 : State := (runOps [.mkFromRaw 3, .mkEmpty] initState).getD initState

/-- An Occupied box (value 2) and an Empty box. -/
def w8 : State := (runOps [.mkFromRaw 2, .mkEmpty] initState).getD initState

/-- An Occupied box (value 2, count 1) and an Empty box. -/
def w9 : State := (runOps [.mkFromRaw 2, .mkEmpty] initState).getD initState

/-- A single box holding value 6. -/
def w10 : State := (runOps [.mkFromRaw 6] initState).getD initState

/-- C2.  The claimed invariant — whenever a box is Occupied its shared count
is at least 1 and equals exactly the number of live handles aliasing the
value, preserved by every public operation — is false: the client program
`cexOps` (construct, copy, construct, move-assign onto an Occupied
destination) reaches a state where a box's count cell holds 2 while a single
live handle aliases it, because `operator=(smart_ptr&&)` overwrites the
destination's members without releasing its previous value/count pair. -/
theorem countInv_not_invariant : ¬ (∀ s, Reachable s → CountInv s) := by
  intro hAll
  have hre : Reachable cexState := ⟨cexOps, rfl⟩
  have h := (hAll cexState hre 1 ⟨some 0, some 0⟩ 0 rfl rfl).2
  rw [show aliasCount cexState 0 = 1 from rfl] at h
  exact absurd h (by decide)

/-- C3.  Move assignment onto an Occupied destination does not release the
destination's previous value/count pair: in `c3pre`, box 0 is the sole owner
(count 1) of value 4; after `b0 = std::move(b1)` the old count cell still
holds 1 (not freed), the old value cell still holds 4 (not destroyed), and no
live handle references either — both cells leak, contradicting the uniform
release rule the spec requires of assignment. -/
theorem moveAssign_skips_release :
    moveAssign 0 1 c3pre = some c3post ∧
    refCountAt 0 c3pre = some 1 ∧
    c3post.cnts 0 = some 1 ∧
    c3post.vals 0 = some 4 ∧
    aliasCount c3post 0 = 0 :=
  ⟨rfl, by decide, by decide, by decide, by decide⟩

/-- C4.  Copy construction from an Empty source dereferences a null pointer:
the copy constructor executes `(*ref_)++` without the null check that copy
assignment performs, so on the one-Empty-box state the operation is undefined
behavior (modelled as `none`) instead of completing without failing. -/
theorem copyCtor_empty_undefined :
    c4State.handles 0 = some ⟨none, none⟩ ∧ copyCtor 0 c4State = none :=
  ⟨rfl, rfl⟩

/-- C6.  When the count allocation fails, the by-reference raw-value
constructor leaves the state — in particular the caller-owned value cell —
entirely untouched and propagates the failure, while the by-transfer
constructor deletes exactly the raw value cell before propagating, touching
nothing else. -/
theorem rawCtor_failure_ownership (s : State) (a : Nat) (x : Val)
    (_ha : s.vals a = some x) :
    ctorFromRawL a true s = .oom s ∧
    ∃ s', ctorFromRawR a true s = .oom s' ∧ s'.vals a = none ∧
      s'.handles = s.handles ∧ s'.numH = s.numH ∧ s'.cnts = s.cnts ∧
      ∀ b, b ≠ a → s'.vals b = s.vals b := by
  refine ⟨rfl, freeVal a s, rfl, ?_, rfl, rfl, rfl, ?_⟩
  · simp
  · intro b hb
    simpa using Function.update_noteq hb none s.vals

/-- Closed instance of `rawCtor_failure_ownership` on the heap `w6` holding
one raw value 9 at address 0. -/
theorem rawCtor_failure_ownership_witness :
    ctorFromRawL 0 true w6 = .oom w6 ∧
    ∃ s', ctorFromRawR 0 true w6 = .oom s' ∧ s'.vals 0 = none ∧
      s'.handles = w6.handles ∧ s'.numH = w6.numH ∧ s'.cnts = w6.cnts ∧
      ∀ b, b ≠ 0 → s'.vals b = w6.vals b :=
  rawCtor_failure_ownership w6 0 9 rfl

/-- C10.  Value access and member access modify nothing: whatever result an
invocation of `operator*` or `operator->` produces — a successful access or a
thrown `null_ptr_exception` — the state it leaves behind is exactly the state
before the call (handles, value cells, count cells all unchanged). -/
theorem deref_pure (s : State) (i : Nat) :
    (∀ r, derefStar i s = some r → r.stateOf = s) ∧
    (∀ r, derefArrow i s = some r → r.stateOf = s) := by
  constructor
  · intro r hr
    unfold derefStar at hr
    split at hr
    · exact absurd hr (by simp)
    · split at hr
      · cases hr; rfl
      · split at hr
        · exact absurd hr (by simp)
        · cases hr; rfl
  · intro r hr
    unfold derefArrow at hr
    split at hr
    · exact absurd hr (by simp)
    · split at hr
      · cases hr; rfl
      · cases hr; rfl

/-- Closed instance of `deref_pure` on the one-box state `w10`. -/
theorem deref_pure_witness :
    DerefRes.stateOf (.ok 6 w10) = w10 ∧ ArrowRes.stateOf (.ok 0 w10) = w10 :=
  ⟨(deref_pure w10 0).1 (.ok 6 w10) rfl, (deref_pure w10 0).2 (.ok 0 w10) rfl⟩

/-- C7.  Value access and member access throw `null_ptr_exception` exactly
when the box is Empty (no count object, `ref_ = none`; the hypothesis
`hpair` is the Empty-state pairing of the two members, which holds in every
reachable state), and on an Occupied box they do not throw and return the
owned value (respectively a pointer to it). -/
theorem deref_invalid_access (s : State) (i : Nat) (h : smart_ptr)
    (hh : s.handles i = some h)
    (hpair : h.ptr_ = none ↔ h.ref_ = none) :
    (derefStar i s = some (.nullExc s) ↔ h.ref_ = none) ∧
    (derefArrow i s = some (.nullExc s) ↔ h.ref_ = none) ∧
    (∀ v x, h.ptr_ = some v → s.vals v = some x →
      derefStar i s = some (.ok x s) ∧ derefArrow i s = some (.ok v s)) := by
  cases hp : h.ptr_ with
  | none =>
    have hrn : h.ref_ = none := hpair.mp hp
    refine ⟨?_, ?_, ?_⟩
    · simp [derefStar, hh, hp, hrn]
    · simp [derefArrow, hh, hp, hrn]
    · intro v x hv
      exact absurd hv (by simp)
  | some v =>
    have hrn : ¬ h.ref_ = none := fun hc => by
      rw [hpair.mpr hc] at hp
      exact Option.noConfusion hp
    refine ⟨?_, ?_, ?_⟩
    · cases hsv : s.vals v <;> simp [derefStar, hh, hp, hsv, hrn]
    · simp [derefArrow, hh, hp, hrn]
    · intro v' x hv hx
      cases hv
      constructor
      · simp [derefStar, hh, hp, hx]
      · simp [derefArrow, hh, hp]

/-- Closed instance of `deref_invalid_access` on `w7`: box 1 is Empty and
`operator*` throws there; box 0 is Occupied with value 3, both accessors
succeed. -/
theorem deref_invalid_access_witness :
    derefStar 1 w7 = some (.nullExc w7) ∧
    derefStar 0 w7 = some (.ok 3 w7) ∧ derefArrow 0 w7 = some (.ok 0 w7) :=
  ⟨(deref_invalid_access w7 1 ⟨none, none⟩ rfl Iff.rfl).1.mpr rfl,
   (deref_invalid_access w7 0 ⟨some 0, some 0⟩ rfl Iff.rfl).2.2 0 3 rfl rfl⟩

/-- C8.  `ref_count()` always returns a defined value without touching the
state, that value is the current shared count when the box is Occupied, and
it is 0 exactly when the box is Empty.  The hypothesis `hcnt` says the
handle's count cell is allocated and holds at least 1, which is how every
reachable Occupied box looks. -/
theorem ref_count_zero_iff_empty (s : State) (i : Nat) (h : smart_ptr)
    (hh : s.handles i = some h)
    (hcnt : ∀ c, h.ref_ = some c → ∃ n, s.cnts c = some n ∧ 1 ≤ n) :
    ∃ n, refCountAt i s = some n ∧ (n = 0 ↔ h.ref_ = none) ∧
      ∀ c, h.ref_ = some c → s.cnts c = some n := by
  cases hr : h.ref_ with
  | none =>
    refine ⟨0, ?_, by simp, ?_⟩
    · simp [refCountAt, ref_count, hh, hr]
    · intro c hc
      exact absurd hc (by simp)
  | some c =>
    obtain ⟨n, hcn, hn1⟩ := hcnt c hr
    refine ⟨n, ?_, ?_, ?_⟩
    · simp [refCountAt, ref_count, hh, hr, hcn]
    · exact ⟨fun h0 => absurd h0 (by omega), fun hc => absurd hc (by simp)⟩
    · intro c' hc'
      cases hc'
      exact hcn

/-- Closed instance of `ref_count_zero_iff_empty` on `w8`: the Occupied box 0
reports its shared count 1, which is nonzero. -/
theorem ref_count_zero_iff_empty_witness :
    ∃ n, refCountAt 0 w8 = some n ∧
      (n = 0 ↔ (⟨some 0, some 0⟩ : smart_ptr).ref_ = none) ∧
      ∀ c, (⟨some 0, some 0⟩ : smart_ptr).ref_ = some c → w8.cnts c = some n :=
  ref_count_zero_iff_empty w8 0 ⟨some 0, some 0⟩ rfl (by
    intro c hc
    cases hc
    exact ⟨1, rfl, by decide⟩)

/-- C9.  Move construction and move assignment from the box in slot `i`
allocate nothing (both heaps are untouched), leave the source with
`ref_count() == 0`, and hand the destination the source's members, so the
destination's count equals the source's pre-move count; move-assigning a box
to itself is detected by identity and changes nothing. -/
theorem move_transfers (s : State) (i j : Nat) (h : smart_ptr)
    (hh : s.handles i = some h) (hi : i < s.numH) :
    (∃ s', moveCtor i s = some s' ∧
      s'.vals = s.vals ∧ s'.cnts = s.cnts ∧
      refCountAt i s' = some 0 ∧
      s'.handles s.numH = some h ∧ refCountAt s.numH s' = ref_count s h) ∧
    (∀ hj, j ≠ i → s.handles j = some hj →
      ∃ s', moveAssign j i s = some s' ∧
        s'.vals = s.vals ∧ s'.cnts = s.cnts ∧
        refCountAt i s' = some 0 ∧
        s'.handles j = some h ∧ refCountAt j s' = ref_count s h) ∧
    moveAssign i i s = some s := by
  have hne : i ≠ s.numH := Nat.ne_of_lt hi
  refine ⟨?_, ?_, ?_⟩
  · refine ⟨pushHandle ⟨h.ptr_, h.ref_⟩ (setHandle i ⟨none, none⟩ s), ?_, rfl, rfl, ?_, ?_, ?_⟩
    · unfold moveCtor
      rw [hh]
    · unfold refCountAt
      simp only [pushHandle_handles, setHandle_handles, setHandle_numH]
      rw [Function.update_noteq hne, Function.update_same]
      rfl
    · simp only [pushHandle_handles, setHandle_handles, setHandle_numH]
      rw [Function.update_same]
    · unfold refCountAt
      simp only [pushHandle_handles, setHandle_handles, setHandle_numH]
      rw [Function.update_same]
      unfold ref_count
      rfl
  · intro hj hji hhj
    refine ⟨setHandle i ⟨none, none⟩ (setHandle j ⟨h.ptr_, h.ref_⟩ s), ?_, rfl, rfl, ?_, ?_, ?_⟩
    · unfold moveAssign
      rw [if_neg hji, hhj, hh]
    · unfold refCountAt
      simp only [setHandle_handles]
      rw [Function.update_same]
      rfl
    · simp only [setHandle_handles]
      rw [Function.update_noteq hji, Function.update_same]
    · unfold refCountAt
      simp only [setHandle_handles]
      rw [Function.update_noteq hji, Function.update_same]
      unfold ref_count
      rfl
  · unfold moveAssign
    rw [if_pos rfl, hh]

/-- Closed instance of `move_transfers` on `w9` (box 0 Occupied, box 1
Empty): covers move construction from box 0, `b1 = std::move(b0)`, and
self-move of box 0. -/
theorem move_transfers_witness :
    (∃ s', moveCtor 0 w9 = some s' ∧
      s'.vals = w9.vals ∧ s'.cnts = w9.cnts ∧
      refCountAt 0 s' = some 0 ∧
      s'.handles w9.numH = some ⟨some 0, some 0⟩ ∧
      refCountAt w9.numH s' = ref_count w9 ⟨some 0, some 0⟩) ∧
    (∀ hj, (1 : Nat) ≠ 0 → w9.handles 1 = some hj →
      ∃ s', moveAssign 1 0 w9 = some s' ∧
        s'.vals = w9.vals ∧ s'.cnts = w9.cnts ∧
        refCountAt 0 s' = some 0 ∧
        s'.handles 1 = some ⟨some 0, some 0⟩ ∧
        refCountAt 1 s' = ref_count w9 ⟨some 0, some 0⟩) ∧
    moveAssign 0 0 w9 = some w9 :=
  move_transfers w9 0 1 ⟨some 0, some 0⟩ rfl (by decide)

/-- C1.  Strong guarantee of `clone()`: when either of the two allocations
fails (flags `fV` for `new T()`, `fC` for `new int(1)`), the call propagates
the failure (`oom`) and the resulting state has the same handles — the
invoking box and every sibling — the same value heap, and the same count
heap as before the call; in particular the partially allocated value cell of
the second-allocation-fails path has been freed again, so nothing leaks.
Only the allocator's fresh-address counters differ, which is not observable
program state. -/
theorem clone_strong_guarantee (s : State) (i v c : Nat) (h : smart_ptr) (n : Int)
    (fV fC : Bool)
    (hh : s.handles i = some h) (hp : h.ptr_ = some v) (hr : h.ref_ = some c)
    (hc : s.cnts c = some n) (hn : n ≠ 1)
    (hfresh : s.vals s.nextV = none)
    (hfail : fV = true ∨ fC = true) :
    ∃ s', clone i fV fC s = some (.oom s') ∧ s'.handles = s.handles ∧
      s'.numH = s.numH ∧ s'.vals = s.vals ∧ s'.cnts = s.cnts := by
  have hrc : ref_count s h = some n := by
    simp [ref_count, hr, hc]
  cases fV with
  | true =>
    refine ⟨s, ?_, rfl, rfl, rfl, rfl⟩
    simp [clone, hh, hp, hrc, hn]
  | false =>
    have hfC : fC = true := hfail.resolve_left (by simp)
    subst hfC
    refine ⟨freeVal (allocVal 0 s).1 (allocVal 0 s).2, ?_, rfl, rfl, ?_, rfl⟩
    · simp [clone, hh, hp, hrc, hn]
    · simp only [freeVal_vals, allocVal_vals, allocVal_fst]
      rw [Function.update_idem, ← hfresh]
      exact Function.update_eq_self _ _

/-- Closed instance of `clone_strong_guarantee` on the count-2 state `w1`,
once with the first allocation failing and once with the second. -/
theorem clone_strong_guarantee_witness :
    (∃ s', clone 0 true false w1 = some (.oom s') ∧ s'.handles = w1.handles ∧
      s'.numH = w1.numH ∧ s'.vals = w1.vals ∧ s'.cnts = w1.cnts) ∧
    (∃ s', clone 0 false true w1 = some (.oom s') ∧ s'.handles = w1.handles ∧
      s'.numH = w1.numH ∧ s'.vals = w1.vals ∧ s'.cnts = w1.cnts) :=
  ⟨clone_strong_guarantee w1 0 0 0 ⟨some 0, some 0⟩ 2 true false
     rfl rfl rfl rfl (by decide) rfl (Or.inl rfl),
   clone_strong_guarantee w1 0 0 0 ⟨some 0, some 0⟩ 2 false true
     rfl rfl rfl rfl (by decide) rfl (Or.inr rfl)⟩

/-- C5.  Functional behavior of `clone()`: it returns `false` and changes
nothing (the state is returned as-is) on an Empty box, and likewise on a box
whose shared count is exactly 1; on a box with shared count `n > 1` it
returns `true`, and afterwards the box holds a freshly allocated value/count
pair, its `ref_count()` is 1, dereferencing yields the same value `x` as
before the call, the old count cell dropped to `n - 1`, and every former
sibling now reports `ref_count() == n - 1`. -/
theorem clone_spec (s : State) (i : Nat) :
    (∀ fV fC h, s.handles i = some h → h.ptr_ = none →
      clone i fV fC s = some (.ret false s)) ∧
    (∀ fV fC h c, s.handles i = some h → h.ref_ = some c → s.cnts c = some 1 →
      clone i fV fC s = some (.ret false s)) ∧
    (∀ h v c n x, s.handles i = some h → h.ptr_ = some v → h.ref_ = some c →
      s.cnts c = some n → 1 < n → s.vals v = some x →
      s.vals s.nextV = none → s.cnts s.nextC = none →
      ∃ s', clone i false false s = some (.ret true s') ∧
        s'.handles i = some ⟨some s.nextV, some s.nextC⟩ ∧
        refCountAt i s' = some 1 ∧
        derefStar i s' = some (.ok x s') ∧
        s'.cnts c = some (n - 1) ∧
        ∀ j h', j ≠ i → s.handles j = some h' → h'.ref_ = some c →
          refCountAt j s' = some (n - 1)) := by
  refine ⟨?_, ?_, ?_⟩
  · intro fV fC h hh hp
    simp [clone, hh, hp]
  · intro fV fC h c hh hr hc1
    cases hpp : h.ptr_ with
    | none => simp [clone, hh, hpp]
    | some v =>
      have hrc : ref_count s h = some 1 := by simp [ref_count, hr, hc1]
      simp [clone, hh, hpp, hrc]
  · intro h v c n x hh hp hr hc h1n hx hfV hfC
    have hvne : v ≠ s.nextV := fun he => by rw [he, hfV] at hx; exact Option.noConfusion hx
    have hcne : c ≠ s.nextC := fun he => by rw [he, hfC] at hc; exact Option.noConfusion hc
    have hrc : ref_count s h = some n := by simp [ref_count, hr, hc]
    have hn1 : ¬ (n = 1) := by omega
    refine ⟨setHandle i ⟨some s.nextV, some s.nextC⟩
        (writeCnt c (n - 1) (setHandle i ⟨some s.nextV, some c⟩
          (writeVal s.nextV x (allocCnt 1 (allocVal 0 s).2).2))),
      ?_, ?_, ?_, ?_, ?_, ?_⟩
    · simp [clone, hh, hp, hr, hrc, hn1, Function.update_noteq hvne,
        Function.update_noteq hcne, hx, hc]
    · simp [Function.update_same]
    · simp [refCountAt, ref_count, Function.update_same,
        Function.update_noteq (Ne.symm hcne)]
    · simp [derefStar, Function.update_same, Function.update_idem]
    · simp [Function.update_same]
    · intro j h' hji hhj hrj
      simp [refCountAt, ref_count, Function.update_noteq hji, hhj, hrj,
        Function.update_same]

/-- Closed instance of `clone_spec`, success case, on the count-3 state `w5`:
the clone ends with count 1 and value 7, the two former siblings with
count 2. -/
theorem clone_spec_witness :
    ∃ s', clone 0 false false w5 = some (.ret true s') ∧
      s'.handles 0 = some ⟨some w5.nextV, some w5.nextC⟩ ∧
      refCountAt 0 s' = some 1 ∧
      derefStar 0 s' = some (.ok 7 s') ∧
      s'.cnts 0 = some 2 ∧
      ∀ j h', j ≠ 0 → w5.handles j = some h' → h'.ref_ = some 0 →
        refCountAt j s' = some 2 :=
  (clone_spec w5 0).2.2 ⟨some 0, some 0⟩ 0 0 3 7
    rfl rfl rfl rfl (by decide) rfl rfl rfl

end SmartPtrModel
